import Mathlib

/-!
Verification development for the AI shopping-agent backend (src/main.py).

The service is a FastAPI app with four handlers:
  * POST /api/search            (search_products)
  * POST /api/track             (track_interaction)
  * GET  /api/recommendations/  (get_recommendations)
  * GET  /                      (status; not modelled, carries no logic)
plus helpers get_db_connection, get_user_preferences, get_user_click_history,
get_similar_products, search_database, search_products_with_claude.

Externals (PostgreSQL catalog, Supabase preference/interaction store, the
Claude web-search agent) are modelled as components of an `Env` record:
the catalog as a `DbOutcome` (connection failure / query error / the rows of
the products table), the two Supabase client tiers as `Option`-wrapped
lookup functions (`none` = the credential is unconfigured, exactly the
`supabase`/`supabase_admin` globals being `None`), and the agent as a
function from the query to the parsed JSON of its textual reply
(`none` = the call threw, the reply was empty, or JSON parsing failed -
all of which the source collapses to `[]`).

Python string primitives (`str.lower`, `str.strip`, the `in` operator,
`str.startswith`, `int(...)`) are embedded below as executable functions on
`String`; case-folding is ASCII (all keywords and field names in the source
are ASCII).
-/

namespace Shop

/-- ASCII lower-casing of one character, as Python `str.lower` acts on the
ASCII range used by the service. -/
def pyLowerChar (c : Char) : Char :=
  if 65 ≤ c.toNat && c.toNat ≤ 90 then Char.ofNat (c.toNat + 32) else c

/-- Python `s.lower()` (ASCII range). -/
def pyLower (s : String) : String := String.mk (s.data.map pyLowerChar)

/-- Python whitespace recognised by `str.strip()`:
space, tab, LF, VT, FF, CR. -/
def isPySpace (c : Char) : Bool :=
  c.toNat = 32 || c.toNat = 9 || c.toNat = 10 || c.toNat = 11 ||
  c.toNat = 12 || c.toNat = 13

/-- Python `s.strip()`. -/
def pyStrip (s : String) : String :=
  String.mk (((s.data.dropWhile isPySpace).reverse.dropWhile isPySpace).reverse)

/-- `startsWithChars l p` : the list `l` starts with the list `p`. -/
def startsWithChars : List Char → List Char → Bool
  | _, [] => true
  | [], _ :: _ => false
  | a :: as, b :: bs => a == b && startsWithChars as bs

/-- `hasSubChars hay needle` : `needle` occurs contiguously in `hay`. -/
def hasSubChars : List Char → List Char → Bool
  | [], needle => needle.isEmpty
  | a :: t, needle => startsWithChars (a :: t) needle || hasSubChars t needle

/-- Python `needle in hay` on strings. -/
def pyIn (needle hay : String) : Bool := hasSubChars hay.data needle.data

/-- Python `s.startswith(pre)`. -/
def pyStartsWith (s pre : String) : Bool := startsWithChars s.data pre.data

/-- Truthiness of an optional string body field: Python `if x:` is false for
a missing field (`None`) and for the empty string. -/
def pyTruthyStr : Option String → Bool
  | none => false
  | some s => !(s == "")

/-- Decimal digit value, for the model of Python `int(...)`. -/
def digitVal (c : Char) : Option Nat :=
  if 48 ≤ c.toNat && c.toNat ≤ 57 then some (c.toNat - 48) else none

/-- Parse a nonempty all-digit character list as a natural number. -/
def digitsToNat (cs : List Char) : Option Nat :=
  if cs.isEmpty then none
  else cs.foldl (fun acc c =>
    match acc, digitVal c with
    | some n, some d => some (10 * n + d)
    | _, _ => none) (some 0)

/-- Python `int(s)` on the decimal string forms that occur as product ids:
surrounding whitespace is stripped, an optional sign is accepted, and the
remainder must be one or more digits; anything else raises `ValueError`,
modelled as `none`.  (Python's underscore digit grouping is not modelled;
no id in the system contains one.) -/
def pyIntOfString (s : String) : Option Int :=
  match (pyStrip s).data with
  | [] => none
  | c :: rest =>
      if c.toNat = 43 then (digitsToNat rest).map Int.ofNat
      else if c.toNat = 45 then (digitsToNat rest).map (fun n => -(n : Int))
      else (digitsToNat (c :: rest)).map Int.ofNat

/-- JSON values, used for the agent's parsed reply and for free-form
`metadata`. -/
inductive JValue where
  | null
  | str (s : String)
  | num (q : Rat)
  | bool (b : Bool)
  | arr (xs : List JValue)
  | obj (fields : List (String × JValue))

/-- A parsed JSON object: an insertion-ordered association list, as a Python
`dict` produced by `json.loads` (keys unique). -/
abbrev JObj := List (String × JValue)

/-- Python `d[k]` presence-respecting lookup (first matching key). -/
def jLookup : JObj → String → Option JValue
  | [], _ => none
  | (k1, v) :: rest, k => if k1 = k then some v else jLookup rest k

/-- Python `d[k] = v`: replace in place if the key exists, else append
(insertion order preserved). -/
def setKey : JObj → String → JValue → JObj
  | [], k, v => [(k, v)]
  | (k1, v1) :: rest, k, v =>
      if k1 = k then (k1, v) :: rest else (k1, v1) :: setKey rest k v

/-- Python `d.setdefault(k, v)`: insert only when the key is absent.
A key present with value `null` (Python `None`) is left untouched. -/
def setdefault (o : JObj) (k : String) (v : JValue) : JObj :=
  match jLookup o k with
  | some _ => o
  | none => o ++ [(k, v)]

/-- Python truthiness of a JSON value (`if metadata:`). -/
def jTruthy : JValue → Bool
  | .null => false
  | .str s => !(s == "")
  | .num q => !(q == 0)
  | .bool b => b
  | .arr xs => !xs.isEmpty
  | .obj fs => !fs.isEmpty

/-- Is the JSON value an object (a Python `dict`)? -/
def isObjJ : JValue → Bool
  | .obj _ => true
  | _ => false

/-- Object payload of a JSON value (only applied under an `isObjJ` guard). -/
def toObj : JValue → JObj
  | .obj fs => fs
  | _ => []

/-- The nine field defaults applied to each web-fallback entry, in source
order (src/main.py lines 393-401). -/
def webDefaults : JObj :=
  [("name", .str "Unknown Product"),
   ("brand", .str "Unknown"),
   ("price", .num 0),
   ("color", .str "N/A"),
   ("fit", .str "Regular"),
   ("category", .str "clothing"),
   ("retailer", .str "Online Store"),
   ("image_url", .str "https://via.placeholder.com/300x400?text=No+Image"),
   ("product_url", .str "#")]

/-- The display fields the spec requires on every web-fallback product. -/
def requiredFields : List String :=
  ["name", "brand", "price", "color", "fit", "category", "retailer",
   "image_url", "product_url"]

/-- Normalisation of the `i`-th parsed entry (0-based, as `enumerate`):
`product["id"] = f"web_{i+1}"` followed by the nine `setdefault` calls
(src/main.py lines 391-401). -/
def normalizeEntry (i : Nat) (e : JObj) : JObj :=
  webDefaults.foldl (fun acc kv => setdefault acc kv.1 kv.2)
    (setKey e "id" (.str ("web_" ++ toString (i + 1))))

/-- `search_products_with_claude` past the agent call: given the parsed JSON
of the agent's reply (`none` = call raised / empty text / `json.loads`
failure, each of which the source turns into `[]`), return the normalised
product list.  A non-list parse returns `[]`; a list containing a non-object
raises `TypeError` at the mutation step, which the enclosing `except`
converts to `[]` (src/main.py lines 386-406).  No truncation is applied. -/
def parseWebProducts : Option JValue → List JObj
  | some (.arr xs) =>
      if xs.all isObjJ then
        xs.enum.map (fun ie => normalizeEntry ie.1 (toObj ie.2))
      else []
  | _ => []

/-- One row of the `products` table.  All displayed columns are `NOT NULL`
in practice except `style`, which the queries guard with SQL `IN` semantics
(a NULL style matches no `IN` list); it is modelled as `Option`. -/
structure CatalogRow where
  id : Int
  name : String
  brand : String
  price : Rat
  color : String
  fit : String
  category : String
  style : Option String
  image_url : String
  product_url : String
  affiliate_link : String

/-- A `user_profiles` row as read by `get_user_preferences`.  The fit
preference maps send a sub-category to its value; only values that are JSON
lists (`isinstance(category_fits, list)`) contribute, so a value is
modelled as `some fits` when it is a list and `none` otherwise. -/
structure UserPrefs where
  favorite_brands : List String
  favorite_styles : List String
  fit_preferences_tops : List (String × Option (List String))
  fit_preferences_bottoms : List (String × Option (List String))

/-- Outcome of talking to the catalog store within one request:
`noConn` = `get_db_connection` returned `None`; `queryError` = a
`cursor.execute` raised; `rows rs` = the store is healthy and the
`products` table holds `rs` in its natural order. -/
inductive DbOutcome where
  | noConn
  | queryError
  | rows (rs : List CatalogRow)

/-- The admin-tier Supabase client (`supabase_admin`): `clicks uid lim` is
the answer of the click-history query (product ids, most recent first,
already limited; `none` = the call raised); `insertErr` is `some msg` when
`insert(...).execute()` raises with message `msg`. -/
structure AdminClient where
  clicks : String → Nat → Option (List String)
  insertErr : Option String

/-- The process environment: the two Supabase client tiers (`none` = the
corresponding credential is unconfigured, i.e. the global is `None`), the
catalog store, and the web-search agent (query ↦ parsed JSON of its reply,
`none` = call raised / empty reply / unparseable reply). -/
structure Env where
  supabase : Option (String → Option UserPrefs)
  admin : Option AdminClient
  db : DbOutcome
  webResponse : String → Option JValue

/-- `get_user_preferences` (src/main.py lines 61-89): `None` without a
configured read client or without a user id; otherwise the first
`user_profiles` row for the id, with every fetch error collapsed to
`None`. -/
def get_user_preferences (env : Env) (user_id : String) : Option UserPrefs :=
  match env.supabase with
  | none => none
  | some store => if user_id = "" then none else store user_id

/-- SQL `REPLACE(s, '"', '')`: drop every double-quote character. -/
def stripQuotes (s : String) : String :=
  String.mk (s.data.filter (fun c => !(c.toNat == 34)))

/-- Brand normal form used by every brand comparison:
`LOWER(REPLACE(brand, '"', ''))` on the SQL side and
`.lower().replace('"', ...)` on the Python side (the two orders agree since
`"` has no case). -/
def normBrand (s : String) : String := pyLower (stripQuotes s)

/-- The top-classification keywords (src/main.py line 295). -/
def topKeywords : List String :=
  ["shirt", "top", "hoodie", "sweater", "jacket", "blouse", "tshirt",
   "t-shirt", "sweatshirt"]

/-- The bottom-classification keywords (src/main.py line 296). -/
def bottomKeywords : List String :=
  ["jean", "trouser", "pant", "short", "skirt", "chino", "sweatpant"]

/-- `is_top_query`: some top keyword occurs in the lower-cased query. -/
def hasTopKeyword (query : String) : Bool :=
  topKeywords.any (fun k => pyIn k (pyLower query))

/-- `is_bottom_query`: some bottom keyword occurs in the lower-cased query. -/
def hasBottomKeyword (query : String) : Bool :=
  bottomKeywords.any (fun k => pyIn k (pyLower query))

/-- The flattened preferred-fit list of one fit-preference map:
`extend` over the values that are lists, in map order. -/
def collectFits (m : List (String × Option (List String))) : List String :=
  (m.filterMap Prod.snd).flatten

/-- One SQL predicate contributed by `search_database`'s query builder.
`fitTopMember`/`fitBottomMember` record which preference map supplied the
fit list; both render as `LOWER(fit) IN (...)`. -/
inductive SqlFilter where
  | baseText (q : String)
  | brandMember (brands : List String)
  | styleMember (styles : List String)
  | fitTopMember (fits : List String)
  | fitBottomMember (fits : List String)

/-- Does the predicate come from a top-fit preference? -/
def isFitTopFilter : SqlFilter → Bool
  | .fitTopMember _ => true
  | _ => false

/-- Does the predicate come from a bottom-fit preference? -/
def isFitBottomFilter : SqlFilter → Bool
  | .fitBottomMember _ => true
  | _ => false

/-- Any fit predicate at all. -/
def isFitFilter (f : SqlFilter) : Bool := isFitTopFilter f || isFitBottomFilter f

/-- The predicate set assembled by `search_database` (src/main.py lines
260-332): the base OR-of-substring clause always; with preferences, the
brand, style and fit clauses exactly as the source appends them.  The fit
branch mirrors the `if is_top_query and fit_prefs_tops: ... elif
is_bottom_query and fit_prefs_bottoms: ...` chain; `list(set(...))`
de-duplication is modelled by `List.dedup` (Python set order is
unspecified; only membership reaches the SQL `IN` list). -/
def buildFilters (query : String) (prefs : Option UserPrefs) : List SqlFilter :=
  let base := [SqlFilter.baseText (pyLower query)]
  match prefs with
  | none => base
  | some p =>
    let brandF := if p.favorite_brands.length > 0 then
        [SqlFilter.brandMember (p.favorite_brands.map pyLower)] else []
    let styleF := if p.favorite_styles.length > 0 then
        [SqlFilter.styleMember (p.favorite_styles.map pyLower)] else []
    let fitF :=
      if hasTopKeyword query && !p.fit_preferences_tops.isEmpty then
        let fits := collectFits p.fit_preferences_tops
        if fits.length > 0 then [SqlFilter.fitTopMember (fits.dedup.map pyLower)]
        else []
      else if hasBottomKeyword query && !p.fit_preferences_bottoms.isEmpty then
        let fits := collectFits p.fit_preferences_bottoms
        if fits.length > 0 then [SqlFilter.fitBottomMember (fits.dedup.map pyLower)]
        else []
      else []
    base ++ brandF ++ styleF ++ fitF

/-- Row semantics of one predicate.  `LIKE '%q%'` on a lower-cased column is
substring containment (no wildcard character occurs in the use sites);
`IN` lists compare against the already lower-cased parameters. -/
def evalFilter (f : SqlFilter) (r : CatalogRow) : Bool :=
  match f with
  | .baseText q =>
      pyIn q (pyLower r.name) || pyIn q (pyLower r.brand) ||
      pyIn q (pyLower r.color) || pyIn q (pyLower r.category) ||
      pyIn q (pyLower r.fit)
  | .brandMember bs => bs.contains (normBrand r.brand) || bs.contains (pyLower r.brand)
  | .styleMember ss =>
      match r.style with
      | some s => ss.contains (pyLower s)
      | none => false
  | .fitTopMember fs => fs.contains (pyLower r.fit)
  | .fitBottomMember fs => fs.contains (pyLower r.fit)

/-- A shaped search result: the selected row plus the `retailer` key the
handler adds (`product.get('brand', 'Online Store')`; the `brand` key is
always present in a row, so this is the brand). -/
structure Product where
  row : CatalogRow
  retailer : String

/-- Row → response product shaping done in `search_database`. -/
def shapeProduct (r : CatalogRow) : Product := ⟨r, r.brand⟩

/-- `search_database` (src/main.py lines 244-355): no connection or a query
error degrade to `[]`; otherwise preferences are fetched only for a truthy
`user_id`, the predicate set is built, and the matching rows are returned
in store order with `LIMIT 50`. -/
def search_database (env : Env) (query : String) (user_id : Option String) :
    List Product :=
  match env.db with
  | .noConn => []
  | .queryError => []
  | .rows rs =>
      let user_prefs :=
        match user_id with
        | some uid => if uid = "" then none else get_user_preferences env uid
        | none => none
      let filters := buildFilters query user_prefs
      ((rs.filter (fun r => filters.all (fun f => evalFilter f r))).take 50).map
        shapeProduct

/-- `search_products_with_claude` for a given environment and query:
agent call plus the parsing/normalisation of `parseWebProducts`. -/
def search_products_with_claude (env : Env) (query : String) : List JObj :=
  parseWebProducts (env.webResponse query)

/-- An HTTP handler outcome: a JSON 200 body, or an error response raised
via `HTTPException` (FastAPI renders it with exactly that status code). -/
inductive HttpOut (α : Type) where
  | ok (body : α)
  | err (status : Nat) (detail : String)

/-- HTTP status of a handler outcome (a plain return is a 200). -/
def statusOf {α : Type} : HttpOut α → Nat
  | .ok _ => 200
  | .err s _ => s

/-- External calls the search handler makes, in order. -/
inductive CallEvent where
  | dbSearch
  | webSearch
deriving DecidableEq

/-- Body of POST /api/search.  `query` is `body.get("query", "")` (absent ⇒
`""`); `user_id` is `body.get("user_id")`.  Both are strings per the
interface contract. -/
structure SearchBody where
  query : Option String
  user_id : Option String

/-- The 200 body of POST /api/search.  The JSON `products` array is
`db_products` on the database branch and `web_products` on the web branch
(at most one is nonempty); absent JSON keys are `none`. -/
structure SearchOk where
  query : String
  total_results : Nat
  db_products : List Product
  web_products : List JObj
  source : String
  personalized : Bool
  message : Option String

/-- POST /api/search (src/main.py lines 418-471), returned together with
the trace of external calls it performed.

The whole body sits in `try: ... except Exception as e: raise
HTTPException(status_code=500, ...)`.  `fastapi.HTTPException` derives from
`Exception`, so the `raise HTTPException(status_code=400, "Query cannot be
empty")` on an empty/whitespace query is caught by that blanket handler and
re-raised as a 500 whose detail wraps the original message; the client
observes status 500.  (Only the status code is asserted by theorems; the
wrapped detail string is informative.) -/
def search_products (env : Env) (body : SearchBody) :
    HttpOut SearchOk × List CallEvent :=
  let query := body.query.getD ""
  if query = "" ∨ pyStrip query = "" then
    (.err 500 "Search failed: 400: Query cannot be empty", [])
  else
    let db_products := search_database env query body.user_id
    if db_products.length > 0 then
      (.ok { query := query, total_results := db_products.length,
             db_products := db_products, web_products := [],
             source := "database",
             personalized := body.user_id.isSome && env.supabase.isSome,
             message := none }, [.dbSearch])
    else
      let web_products := search_products_with_claude env query
      if web_products.length = 0 then
        (.ok { query := query, total_results := 0, db_products := [],
               web_products := [], source := "none", personalized := false,
               message := some "No products found in database or web search. Try a different search." },
         [.dbSearch, .webSearch])
      else
        (.ok { query := query, total_results := web_products.length,
               db_products := [], web_products := web_products,
               source := "web_search", personalized := false,
               message := none }, [.dbSearch, .webSearch])

/-- Body of POST /api/track. -/
structure TrackBody where
  user_id : Option String
  product_id : Option String
  action : Option String
  metadata : Option JValue

/-- The 200 body of POST /api/track. -/
structure TrackOk where
  success : Bool
  message : Option String

/-- A `user_interactions` row as the handler inserts it. -/
structure InteractionData where
  user_id : String
  action : String
  product_id : Option String
  metadata : Option JValue

/-- POST /api/track (src/main.py lines 473-522), returned with the list of
interaction rows written.  As in the search handler, the explicit
`HTTPException(400)` for a missing `user_id`/`action` is swallowed by the
blanket `except Exception` and resurfaces as a 500.  Without the admin
client the handler returns a 200 `{"success": false}` and writes nothing;
an insert exception becomes a 500 with nothing recorded. -/
def track_interaction (env : Env) (body : TrackBody) :
    HttpOut TrackOk × List InteractionData :=
  if pyTruthyStr body.user_id = false ∨ pyTruthyStr body.action = false then
    (.err 500 "Tracking failed: 400: user_id and action are required", [])
  else
    match env.admin with
    | none => (.ok { success := false, message := some "Tracking not available" }, [])
    | some a =>
        let data : InteractionData :=
          { user_id := body.user_id.getD ""
            action := body.action.getD ""
            product_id := if pyTruthyStr body.product_id then body.product_id else none
            metadata :=
              match body.metadata with
              | some m => if jTruthy m then some m else none
              | none => none }
        match a.insertErr with
        | none => (.ok { success := true, message := none }, [data])
        | some msg => (.err 500 ("Tracking failed: " ++ msg), [])

/-- `get_user_click_history` (src/main.py lines 91-112): `[]` without the
admin client, and `[]` when the store query raises; otherwise the ids the
query returned. -/
def get_user_click_history (env : Env) (user_id : String) (lim : Nat) :
    List String :=
  match env.admin with
  | none => []
  | some a =>
      match a.clicks user_id lim with
      | none => []
      | some ids => ids

/-- The id filter at the head of `get_similar_products` (src/main.py lines
133-140): drop tokens with the `web_` prefix, keep those `int(...)`
accepts, silently skipping `ValueError` tokens. -/
def filterCatalogIds (ids : List String) : List Int :=
  ids.filterMap (fun pid =>
    if pyStartsWith pid "web_" then none else pyIntOfString pid)

/-- A recommendation row: the selected row, the added `retailer`, and the
`recommended_reason` display string. -/
structure Recommendation where
  row : CatalogRow
  retailer : String
  recommended_reason : String

/-- `get_similar_products` (src/main.py lines 114-242), returned with the
trace of catalog queries issued, each recorded as the list of catalog ids
it references (the attribute query's `IN` list, then the candidate query's
`NOT IN` list).  Empty input, no connection, and an empty surviving id set
each return before any query; a `cursor.execute` failure (`queryError`)
degrades to `[]` after the first query was issued.  Set-building
(`brands`/`styles`/`categories`) is modelled with `List.dedup`; only
membership reaches the SQL `IN` lists. -/
def get_similar_products (env : Env) (product_ids : List String)
    (user_prefs : Option UserPrefs) (lim : Nat)
    (category_filter : Option String) :
    List Recommendation × List (List Int) :=
  if product_ids.isEmpty then ([], [])
  else
    match env.db with
    | .noConn => ([], [])
    | .queryError =>
        let db_product_ids := filterCatalogIds product_ids
        if db_product_ids.isEmpty then ([], []) else ([], [db_product_ids])
    | .rows rs =>
        let db_product_ids := filterCatalogIds product_ids
        if db_product_ids.isEmpty then ([], [])
        else
          let clicked := rs.filter (fun r => db_product_ids.contains r.id)
          if clicked.isEmpty then ([], [db_product_ids])
          else
            let brands := (clicked.filterMap (fun r =>
              if r.brand = "" then none else some (normBrand r.brand))).dedup
            let styles := (clicked.filterMap (fun r =>
              match r.style with
              | some s => if s = "" then none else some (pyLower s)
              | none => none)).dedup
            let categories := (clicked.filterMap (fun r =>
              if r.category = "" then none else some (pyLower r.category))).dedup
            let simMatch := fun (c : CatalogRow) =>
              (!brands.isEmpty && brands.contains (normBrand c.brand)) ||
              (!styles.isEmpty &&
                (match c.style with
                 | some s => styles.contains (pyLower s)
                 | none => false)) ||
              (!categories.isEmpty && categories.contains (pyLower c.category))
            let pred := fun (c : CatalogRow) =>
              !db_product_ids.contains c.id &&
              (brands.isEmpty && styles.isEmpty && categories.isEmpty || simMatch c) &&
              (match category_filter with
               | some cf => pyLower c.category == pyLower cf
               | none => true) &&
              (match user_prefs with
               | some p =>
                   if !p.favorite_brands.isEmpty then
                     (p.favorite_brands.map pyLower).contains (normBrand c.brand) ||
                     (p.favorite_brands.map pyLower).contains (pyLower c.brand)
                   else true
               | none => true)
            let results := (rs.filter pred).take lim
            (results.map (fun r => ⟨r, r.brand, "Similar to what you viewed"⟩),
             [db_product_ids, db_product_ids])

/-- The 200 body of GET /api/recommendations/{user_id}; absent JSON keys
are `none`. -/
structure RecOk where
  user_id : String
  total_recommendations : Nat
  recommendations : List Recommendation
  source : String
  based_on_clicks : Option Nat
  category_filter : Option (Option String)
  message : Option String

/-- The style-based row predicate (the `WHERE 1=1 AND ...` query of the
no-click-history branch, src/main.py lines 561-584). -/
def styleFilterRow (p : UserPrefs) (category : Option String)
    (r : CatalogRow) : Bool :=
  (p.favorite_brands.isEmpty ||
    ((p.favorite_brands.map pyLower).contains (normBrand r.brand) ||
     (p.favorite_brands.map pyLower).contains (pyLower r.brand))) &&
  (p.favorite_styles.isEmpty ||
    (match r.style with
     | some s => (p.favorite_styles.map pyLower).contains (pyLower s)
     | none => false)) &&
  (match category with
   | some c => pyLower r.category == pyLower c
   | none => true)

/-- The "no recommendations yet" 200 body (src/main.py lines 613-619);
it carries no `based_on_clicks` and no `category_filter` key. -/
def emptyRecResponse (user_id : String) : HttpOut RecOk :=
  .ok { user_id := user_id, total_recommendations := 0, recommendations := [],
        source := "none", based_on_clicks := none, category_filter := none,
        message := some "No recommendations available yet. Browse and click on products to get personalized recommendations!" }

/-- GET /api/recommendations/{user_id} (src/main.py lines 524-635).
With no click history: a preference record plus a healthy store yields the
style-based branch (even with zero matching rows); a missing record, no
connection, or a query error all fall through to the "none" body.  With
click history, `get_similar_products` feeds the click_based body.
`ORDER BY RANDOM()` only permutes the style-based rows before `LIMIT`; the
model keeps store order (no claim concerns that ordering). -/
def get_recommendations (env : Env) (user_id : String) (lim : Nat)
    (category : Option String) : HttpOut RecOk :=
  if user_id = "" then .err 500 "Recommendation failed: 400: user_id is required"
  else
    let user_prefs := get_user_preferences env user_id
    let clicked := get_user_click_history env user_id 10
    if clicked.isEmpty then
      match user_prefs with
      | some p =>
          match env.db with
          | .rows rs =>
              let recs := ((rs.filter (styleFilterRow p category)).take lim).map
                (fun r => Recommendation.mk r r.brand "Matches your style")
              .ok { user_id := user_id, total_recommendations := recs.length,
                    recommendations := recs, source := "style_based",
                    based_on_clicks := none, category_filter := some category,
                    message := none }
          | _ => emptyRecResponse user_id
      | none => emptyRecResponse user_id
    else
      let recs := (get_similar_products env clicked user_prefs lim category).1
      .ok { user_id := user_id, total_recommendations := recs.length,
            recommendations := recs, source := "click_based",
            based_on_clicks := some clicked.length,
            category_filter := some category, message := none }

/-- The `source` field of a search response (`none` for error outcomes). -/
def respSource : HttpOut SearchOk → Option String
  | .ok r => some r.source
  | .err _ _ => none

/-- The `source` field of a recommendations response. -/
def recSource : HttpOut RecOk → Option String
  | .ok r => some r.source
  | .err _ _ => none

/-- Is field `k` present with value `null`? -/
def isNullAt (o : JObj) (k : String) : Bool :=
  match jLookup o k with
  | some .null => true
  | _ => false

/-- Environment whose web agent answers every query with the fixed parsed
JSON `v` (catalog healthy and empty, no Supabase tiers). -/
def webAgentReturning (v : JValue) : Env :=
  { supabase := none, admin := none, db := .rows [], webResponse := fun _ => some v }

/-- Environment with every dependency absent or down. -/
def env0 : Env :=
  { supabase := none, admin := none, db := .noConn, webResponse := fun _ => none }

/-- Environment with a populated preference store and an empty catalog. -/
def env1 : Env :=
  { supabase := some (fun _ => some ⟨["nike"], ["casual"], [], []⟩),
    admin := none, db := .rows [], webResponse := fun _ => none }

/-- Preference record with both fit-preference maps populated. -/
def prefsTopBoth : UserPrefs :=
  ⟨[], [], [("tshirts", some ["slim"])], [("jeans", some ["skinny"])]⟩

/-- Preference record with only the bottoms fit-preference map populated. -/
def prefsBottomOnly : UserPrefs :=
  ⟨[], [], [], [("jeans", some ["skinny"])]⟩

theorem jLookup_append (o1 o2 : JObj) (k : String) :
    jLookup (o1 ++ o2) k =
      match jLookup o1 k with
      | some v => some v
      | none => jLookup o2 k := by
  induction o1 with
  | nil => simp [jLookup]
  | cons hd tl ih =>
      obtain ⟨k1, v1⟩ := hd
      by_cases h : k1 = k <;> simp [jLookup, h, ih]

theorem jLookup_setdefault_self (o : JObj) (k : String) (v : JValue) :
    (jLookup (setdefault o k v) k).isSome := by
  unfold setdefault
  cases h : jLookup o k with
  | some w => simp [h]
  | none => simp [jLookup_append, h, jLookup]

theorem jLookup_setdefault_mono (o : JObj) (k k1 : String) (v : JValue)
    (h : (jLookup o k).isSome) :
    (jLookup (setdefault o k1 v) k).isSome := by
  unfold setdefault
  cases h1 : jLookup o k1 with
  | some w => exact h
  | none =>
      cases h2 : jLookup o k with
      | some w => simp [jLookup_append, h2]
      | none => simp [h2] at h

theorem foldl_setdefault_mono (ds : JObj) (o : JObj) (k : String)
    (h : (jLookup o k).isSome) :
    (jLookup (ds.foldl (fun acc kv => setdefault acc kv.1 kv.2) o) k).isSome := by
  induction ds generalizing o with
  | nil => exact h
  | cons d rest ih => exact ih _ (jLookup_setdefault_mono o k d.1 d.2 h)

theorem foldl_setdefault_covers (ds : JObj) (o : JObj) (k : String)
    (h : k ∈ ds.map Prod.fst) :
    (jLookup (ds.foldl (fun acc kv => setdefault acc kv.1 kv.2) o) k).isSome := by
  induction ds generalizing o with
  | nil => simp at h
  | cons d rest ih =>
      rcases List.mem_cons.1 h with h1 | h1
      · subst h1
        exact foldl_setdefault_mono rest _ _ (jLookup_setdefault_self o d.1 d.2)
      · exact ih _ h1

theorem normalizeEntry_covers (i : Nat) (e : JObj) (k : String)
    (h : k ∈ requiredFields) :
    (jLookup (normalizeEntry i e) k).isSome := by
  have hfields : requiredFields = webDefaults.map Prod.fst := by decide
  exact foldl_setdefault_covers webDefaults _ k (hfields ▸ h)

/-- Claim C1 (code bug), evaluated at the failing inputs.  The explicit
`HTTPException(status_code=400)` raised for an empty/whitespace query (and
for a missing `user_id`/`action` on /api/track) is caught by the blanket
`except Exception` of the same handler and re-raised as a 500, so the
client sees a 5xx, not the intended 4xx.  No store or agent call is made
on the empty-query path (empty trace). -/
theorem C1_client_error_becomes_500 :
    (statusOf (search_products env0 { query := some "", user_id := none }).1 = 500 ∧
     (search_products env0 { query := some "", user_id := none }).2 = []) ∧
    (statusOf (search_products env0 { query := some "   ", user_id := none }).1 = 500 ∧
     (search_products env0 { query := some "   ", user_id := none }).2 = []) ∧
    (statusOf (track_interaction env0
        { user_id := none, product_id := none, action := some "clicked",
          metadata := none }).1 = 500 ∧
     (track_interaction env0
        { user_id := none, product_id := none, action := some "clicked",
          metadata := none }).2 = []) ∧
    (statusOf (track_interaction env0
        { user_id := some "user-1", product_id := none, action := none,
          metadata := none }).1 = 500) :=
  ⟨⟨rfl, rfl⟩, ⟨rfl, rfl⟩, ⟨rfl, rfl⟩, rfl⟩

/-- Claim C2, counterexample: the upstream entry supplies `color`
explicitly as `null`; `setdefault` leaves the present key untouched, so
the returned product's `color` is `null`, refuting "never null". -/
theorem C2_counterexample :
    (search_products_with_claude
        (webAgentReturning (JValue.arr [JValue.obj [("color", JValue.null)]]))
        "black jeans").length = 1 ∧
    (search_products_with_claude
        (webAgentReturning (JValue.arr [JValue.obj [("color", JValue.null)]]))
        "black jeans").all (fun p => isNullAt p "color") = true := by
  decide

/-- Claim C2 as amended: every returned web-fallback product has every
required display field present as a key (absent upstream fields are
defaulted); a field supplied as `null` is passed through, not replaced. -/
theorem C2_fields_present (env : Env) (q : String) (p : JObj)
    (hp : p ∈ search_products_with_claude env q) :
    ∀ k ∈ requiredFields, (jLookup p k).isSome := by
  intro k hk
  unfold search_products_with_claude parseWebProducts at hp
  cases hr : env.webResponse q with
  | none => rw [hr] at hp; simp at hp
  | some j =>
      rw [hr] at hp
      cases j with
      | arr xs =>
          by_cases hall : xs.all isObjJ
          · simp only [hall, if_true] at hp
            obtain ⟨ie, hmem, rfl⟩ := List.mem_map.1 hp
            exact normalizeEntry_covers ie.1 (toObj ie.2) k hk
          · simp only [hall, if_false] at hp
            simp at hp
      | null => simp at hp
      | str s => simp at hp
      | num n => simp at hp
      | bool b => simp at hp
      | obj fs => simp at hp

/-- Witness for `C2_fields_present` at a concrete one-entry response and
the concrete field "name". -/
theorem C2_fields_present_witness :
    (jLookup (normalizeEntry 0 [("color", JValue.null)]) "name").isSome :=
  C2_fields_present
    (webAgentReturning (JValue.arr [JValue.obj [("color", JValue.null)]])) "q"
    (normalizeEntry 0 [("color", JValue.null)])
    (List.mem_singleton_self _) "name" (by decide)

/-- Claim C3, counterexample: the query "shirt short" contains both a top
and a bottom keyword.  With top-fit preferences present the `elif` adds a
top-fit filter although a bottom keyword occurs (refuting "bottom keyword
never yields a top-fit filter"); with an empty tops map and a populated
bottoms map a bottom-fit filter is added although a top keyword occurs
(refuting "top keyword never yields a bottom-fit filter"). -/
theorem C3_counterexample :
    (hasBottomKeyword "shirt short" = true ∧
     (buildFilters "shirt short" (some prefsTopBoth)).any isFitTopFilter = true) ∧
    (hasTopKeyword "shirt short" = true ∧
     (buildFilters "shirt short" (some prefsBottomOnly)).any isFitBottomFilter = true) := by
  decide

/-- Claim C3 as amended: fit classification resolves with top precedence
along the source's `if/elif` chain: a query with a top keyword and a
populated top-fit map never receives a bottom-fit filter; a query with a
bottom keyword and no top keyword never receives a top-fit filter; a query
matching neither keyword set receives no fit filter at all. -/
theorem C3_fit_precedence (query : String) (p : UserPrefs) :
    (hasTopKeyword query = true → p.fit_preferences_tops ≠ [] →
      (buildFilters query (some p)).any isFitBottomFilter = false) ∧
    (hasBottomKeyword query = true → hasTopKeyword query = false →
      (buildFilters query (some p)).any isFitTopFilter = false) ∧
    (hasTopKeyword query = false → hasBottomKeyword query = false →
      (buildFilters query (some p)).any isFitFilter = false) := by
  refine ⟨?_, ?_, ?_⟩
  · intro h1 h2
    have h2a : p.fit_preferences_tops.isEmpty = false := by
      simpa [List.isEmpty_iff] using h2
    simp only [buildFilters, h1, h2a, List.any_append, Bool.not_false,
      Bool.and_true, Bool.true_and, if_true]
    split_ifs <;>
      simp [isFitBottomFilter, List.any_cons, List.any_nil]
  · intro h1 h2
    simp only [buildFilters, h1, h2, Bool.false_and, Bool.true_and,
      List.any_append, if_false]
    split_ifs <;>
      simp_all [isFitTopFilter, List.any_cons, List.any_nil]
  · intro h1 h2
    simp only [buildFilters, h1, h2, Bool.false_and, List.any_append, if_false]
    split_ifs <;>
      simp_all [isFitFilter, isFitTopFilter, isFitBottomFilter, List.any_cons,
        List.any_nil]

/-- Witness for `C3_fit_precedence`: a pure top query with populated
top-fit preferences gets no bottom-fit filter. -/
theorem C3_fit_precedence_witness :
    (buildFilters "shirt" (some prefsTopBoth)).any isFitBottomFilter = false :=
  (C3_fit_precedence "shirt" prefsTopBoth).1 (by decide) (by decide)

/-- Claim C4: the fallback chain is strictly sequential.  For a non-empty
query the web agent is called exactly when the catalog search came back
empty; a non-empty catalog result ends the request with source "database"
and no web call; an empty catalog result always issues the web call,
ending with source "web_search" when it produced products and "none"
otherwise. -/
theorem C4_fallback_chain (env : Env) (body : SearchBody)
    (h1 : body.query.getD "" ≠ "") (h2 : pyStrip (body.query.getD "") ≠ "") :
    (CallEvent.webSearch ∈ (search_products env body).2 ↔
      search_database env (body.query.getD "") body.user_id = []) ∧
    (search_database env (body.query.getD "") body.user_id ≠ [] →
      (search_products env body).2 = [CallEvent.dbSearch] ∧
      respSource (search_products env body).1 = some "database") ∧
    (search_database env (body.query.getD "") body.user_id = [] →
      (search_products env body).2 = [CallEvent.dbSearch, CallEvent.webSearch] ∧
      (search_products_with_claude env (body.query.getD "") ≠ [] →
        respSource (search_products env body).1 = some "web_search") ∧
      (search_products_with_claude env (body.query.getD "") = [] →
        respSource (search_products env body).1 = some "none")) := by
  have hg : ¬ (body.query.getD "" = "" ∨ pyStrip (body.query.getD "") = "") := by
    rintro (h | h)
    · exact h1 h
    · exact h2 h
  by_cases hdb : search_database env (body.query.getD "") body.user_id = []
  · by_cases hw : search_products_with_claude env (body.query.getD "") = []
    · refine ⟨?_, ?_, ?_⟩
      · simp [search_products, if_neg hg, hdb, hw]
      · intro h; exact absurd hdb h
      · intro _
        refine ⟨by simp [search_products, if_neg hg, hdb, hw], ?_, ?_⟩
        · intro h; exact absurd hw h
        · intro _
          simp [search_products, if_neg hg, hdb, hw, respSource]
    · have hwlen : ¬ (search_products_with_claude env (body.query.getD "")).length = 0 := by
        simpa [List.length_eq_zero] using hw
      refine ⟨?_, ?_, ?_⟩
      · simp [search_products, if_neg hg, hdb, hwlen]
      · intro h; exact absurd hdb h
      · intro _
        refine ⟨by simp [search_products, if_neg hg, hdb, hwlen], ?_, ?_⟩
        · intro _
          simp [search_products, if_neg hg, hdb, hwlen, respSource]
        · intro h; exact absurd h hw
  · have hlen : (search_database env (body.query.getD "") body.user_id).length > 0 :=
      List.length_pos.2 hdb
    refine ⟨?_, ?_, ?_⟩
    · simp [search_products, if_neg hg, hlen, hdb]
    · intro _
      refine ⟨by simp [search_products, if_neg hg, hlen], ?_⟩
      simp [search_products, if_neg hg, hlen, respSource]
    · intro h; exact absurd h hdb

/-- Witness for `C4_fallback_chain`: empty catalog, empty web reply, both
calls traced in order. -/
theorem C4_fallback_chain_witness :
    (search_products { env0 with db := .rows [] }
        { query := some "jeans", user_id := none }).2 =
      [CallEvent.dbSearch, CallEvent.webSearch] :=
  ((C4_fallback_chain { env0 with db := .rows [] }
      { query := some "jeans", user_id := none }
      (by decide) (by decide)).2.2 rfl).1

/-- Claim C5, counterexample: an agent reply parsing to a 9-element JSON
array passes through whole — the fallback never truncates, so "length at
most 8" fails. -/
theorem C5_counterexample :
    (search_products_with_claude
        (webAgentReturning (JValue.arr (List.replicate 9 (JValue.obj []))))
        "black jeans").length = 9 ∧
    ¬ ((search_products_with_claude
        (webAgentReturning (JValue.arr (List.replicate 9 (JValue.obj []))))
        "black jeans").length ≤ 8) := by
  decide

/-- Claim C5 as amended: the web-search fallback returns exactly one
product per entry of the parsed array (when every entry is a JSON object);
no length cap is enforced. -/
theorem C5_length_eq_parsed (env : Env) (q : String) (xs : List JValue)
    (hresp : env.webResponse q = some (JValue.arr xs))
    (hobj : xs.all isObjJ = true) :
    (search_products_with_claude env q).length = xs.length := by
  simp [search_products_with_claude, parseWebProducts, hresp, hobj,
    List.length_map, List.enum_length]

/-- Witness for `C5_length_eq_parsed` at a concrete two-entry response. -/
theorem C5_length_eq_parsed_witness :
    (search_products_with_claude
        (webAgentReturning (JValue.arr [JValue.obj [], JValue.obj []]))
        "jeans").length = ([JValue.obj [], JValue.obj []] : List JValue).length :=
  C5_length_eq_parsed
    (webAgentReturning (JValue.arr [JValue.obj [], JValue.obj []])) "jeans"
    [JValue.obj [], JValue.obj []] rfl rfl

/-- Claim C6: any store-connectivity failure or query-execution error
inside the catalog search degrades to the empty product list;
`search_database` is a total function, so no error propagates. -/
theorem C6_degrade_to_empty (env : Env) (q : String) (uid : Option String)
    (h : env.db = DbOutcome.noConn ∨ env.db = DbOutcome.queryError) :
    search_database env q uid = [] := by
  rcases h with h | h <;> simp [search_database, h]

/-- Witness for `C6_degrade_to_empty` with the connection down. -/
theorem C6_degrade_to_empty_witness :
    search_database env0 "black jeans" (some "user-1") = [] :=
  C6_degrade_to_empty env0 "black jeans" (some "user-1") (Or.inl rfl)

/-- Claim C7: tokens that are not catalog-native integer ids (in
particular every `web_`-prefixed fallback token) are discarded by the id
filter, and when nothing survives the recommender answers `([], no
queries)`; the filter's output is unchanged by first dropping all
`web_`-prefixed tokens. -/
theorem C7_web_tokens_discarded (env : Env) (ids : List String)
    (prefs : Option UserPrefs) (lim : Nat) (cf : Option String)
    (h : filterCatalogIds ids = []) :
    get_similar_products env ids prefs lim cf = ([], []) ∧
    ∀ js : List String,
      filterCatalogIds js =
        filterCatalogIds (js.filter (fun s => !pyStartsWith s "web_")) := by
  constructor
  · by_cases hids : ids.isEmpty
    · simp [get_similar_products, hids]
    · cases hdb : env.db <;> simp [get_similar_products, hids, hdb, h]
  · intro js
    induction js with
    | nil => rfl
    | cons a t ih =>
        by_cases hw : pyStartsWith a "web_"
        · simpa [filterCatalogIds, hw] using ih
        · cases hpi : pyIntOfString a <;>
            simpa [filterCatalogIds, hw, hpi] using ih

/-- Witness for `C7_web_tokens_discarded`: only web tokens and garbage. -/
theorem C7_web_tokens_discarded_witness :
    get_similar_products env0 ["web_1", "abc"] none 8 none = ([], []) :=
  (C7_web_tokens_discarded env0 ["web_1", "abc"] none 8 none (by decide)).1

/-- Claim C8: a search without `user_id` is blind to the preference store:
the whole response (status, products, trace) is unchanged under any swap
of the store, the predicate set is the bare substring clause, and
`personalized` is false on every 200 body. -/
theorem C8_no_personalization_without_user (env : Env)
    (s2 : Option (String → Option UserPrefs)) (body : SearchBody)
    (hid : body.user_id = none) :
    search_products { env with supabase := s2 } body = search_products env body ∧
    (∀ q : String, buildFilters q none = [SqlFilter.baseText (pyLower q)]) ∧
    (∀ r evs, search_products env body = (.ok r, evs) → r.personalized = false) := by
  obtain ⟨bq, buid⟩ := body
  obtain ⟨sup, adm, db, web⟩ := env
  simp only at hid
  subst hid
  have hsd : ∀ s3 s4 : Option (String → Option UserPrefs), ∀ q : String,
      search_database ⟨s3, adm, db, web⟩ q none =
        search_database ⟨s4, adm, db, web⟩ q none := by
    intro s3 s4 q
    cases db <;> rfl
  have hwc : ∀ q : String,
      search_products_with_claude ⟨s2, adm, db, web⟩ q =
        search_products_with_claude ⟨sup, adm, db, web⟩ q := fun _ => rfl
  refine ⟨?_, fun q => rfl, ?_⟩
  · simp only [search_products, hsd s2 sup, hwc, Option.isSome_none, Bool.false_and]
  · intro r evs hok
    simp only [search_products] at hok
    split_ifs at hok
    · simp at hok
    · rw [Prod.mk.injEq] at hok
      obtain ⟨h1, -⟩ := hok
      injection h1 with h1
      subst h1
      simp
    · rw [Prod.mk.injEq] at hok
      obtain ⟨h1, -⟩ := hok
      injection h1 with h1
      subst h1
      simp
    · rw [Prod.mk.injEq] at hok
      obtain ⟨h1, -⟩ := hok
      injection h1 with h1
      subst h1
      simp

/-- Witness for `C8_no_personalization_without_user`: removing the whole
preference store does not change the response of a user-less search. -/
theorem C8_no_personalization_without_user_witness :
    search_products { env1 with supabase := none }
        { query := some "jeans", user_id := none } =
      search_products env1 { query := some "jeans", user_id := none } :=
  (C8_no_personalization_without_user env1 none
      { query := some "jeans", user_id := none } rfl).1

/-- Claim C9: with the admin store client unconfigured, a well-formed
tracking request is answered 200 with `success = false` and the "Tracking
not available" message, and no interaction row is written. -/
theorem C9_tracking_unavailable (env : Env) (body : TrackBody)
    (hu : pyTruthyStr body.user_id = true) (ha : pyTruthyStr body.action = true)
    (hadmin : env.admin = none) :
    track_interaction env body =
      (.ok { success := false, message := some "Tracking not available" }, []) ∧
    statusOf (track_interaction env body).1 = 200 := by
  refine ⟨?_, ?_⟩ <;> simp [track_interaction, hu, ha, hadmin, statusOf]

/-- Witness for `C9_tracking_unavailable` on a concrete click event. -/
theorem C9_tracking_unavailable_witness :
    track_interaction env0
        { user_id := some "user-1", product_id := some "42",
          action := some "clicked", metadata := none } =
      (.ok { success := false, message := some "Tracking not available" }, []) :=
  (C9_tracking_unavailable env0
      { user_id := some "user-1", product_id := some "42",
        action := some "clicked", metadata := none }
      (by decide) (by decide) rfl).1

/-- Claim C10: click history is read through the admin client only:
without it `get_user_click_history` is empty for every user, so
recommendations can never come from the click_based branch — they land in
the style_based or the empty branch. -/
theorem C10_clicks_need_admin (env : Env) (uid : String) (lim : Nat)
    (cat : Option String) (hadmin : env.admin = none) (huid : uid ≠ "") :
    (∀ u l, get_user_click_history env u l = []) ∧
    (recSource (get_recommendations env uid lim cat) = some "style_based" ∨
     recSource (get_recommendations env uid lim cat) = some "none") ∧
    recSource (get_recommendations env uid lim cat) ≠ some "click_based" := by
  have hclk : ∀ u l, get_user_click_history env u l = [] := by
    intro u l
    simp [get_user_click_history, hadmin]
  have hbranch : recSource (get_recommendations env uid lim cat) = some "style_based" ∨
      recSource (get_recommendations env uid lim cat) = some "none" := by
    cases hp : get_user_preferences env uid with
    | none =>
        right
        simp [get_recommendations, if_neg huid, hclk, hp, emptyRecResponse, recSource]
    | some p =>
        cases hdb : env.db with
        | rows rs =>
            left
            simp [get_recommendations, if_neg huid, hclk, hp, hdb, recSource]
        | noConn =>
            right
            simp [get_recommendations, if_neg huid, hclk, hp, hdb,
              emptyRecResponse, recSource]
        | queryError =>
            right
            simp [get_recommendations, if_neg huid, hclk, hp, hdb,
              emptyRecResponse, recSource]
  refine ⟨hclk, hbranch, ?_⟩
  rcases hbranch with h | h <;> rw [h] <;> simp

/-- Witness for `C10_clicks_need_admin`: no admin client and no preference
record lands in the empty branch. -/
theorem C10_clicks_need_admin_witness :
    recSource (get_recommendations env0 "user-1" 8 none) = some "style_based" ∨
    recSource (get_recommendations env0 "user-1" 8 none) = some "none" :=
  (C10_clicks_need_admin env0 "user-1" 8 none rfl (by decide)).2.1

end Shop
